import Mathlib

/-!
Verification of the CD2N nodeadm configuration tool (app.py).

The development shallowly embeds the two transform functions
`load_config_from_docker_compose` and `save_config_to_docker_compose`,
and the commit action `ConfigScreen.action_save_config`, over an
inductive type of YAML values.  Python dictionaries are modelled as
association lists that preserve insertion order (as CPython dicts do);
Python strings as Lean `String`; every operation of the original that
can raise (`.get` on a non-dict, `len` of a non-sized value, indexing,
`.split` on a non-string, `+` on a non-string, `[k]` key lookup)
is modelled in the `Option` monad, `none` standing for a raised
exception.  The try/except that guards the loader body is the
`Option.getD` at the boundary of `load_config_from_docker_compose`.
-/

/-- YAML values as produced by `yaml.safe_load`: strings, booleans,
integers, sequences, mappings (string-keyed, order preserving) and null. -/
inductive Yaml where
  | s : String → Yaml
  | b : Bool → Yaml
  | i : Int → Yaml
  | seq : List Yaml → Yaml
  | map : List (String × Yaml) → Yaml
  | null : Yaml

/-- A Python dict with string keys and YAML values: one service record of
the configuration model (`new_config[service_name]` in the source). -/
abbrev Record := List (String × Yaml)

/-- The configuration model: a dict from service name to service record. -/
abbrev Model := List (String × Record)

/-- Python `d[k] = v` on an insertion-ordered dict: overwrite in place if
the key is present, otherwise append at the end. -/
def dinsert {α : Type} (d : List (String × α)) (k : String) (v : α) : List (String × α) :=
  if d.any (fun p => p.1 == k) then
    d.map (fun p => if p.1 == k then (p.1, v) else p)
  else
    d ++ [(k, v)]

/-- Python `d[k]` on a record dict: `none` models the raised KeyError. -/
def rget (r : Record) (k : String) : Option Yaml :=
  List.lookup k r

/-- Reads field `k` of a record and requires it to be a string scalar,
as the source does wherever the value feeds string concatenation `+`
(a non-string operand raises TypeError, modelled as `none`). -/
def strField (r : Record) (k : String) : Option String :=
  match rget r k with
  | some (.s str) => some str
  | _ => none

/-- Python `v.get(k, dflt)` where `v` came from parsed YAML: raises
(AttributeError) unless `v` is a mapping. -/
def yget (v : Yaml) (k : String) (dflt : Yaml) : Option Yaml :=
  match v with
  | .map d => some ((List.lookup k d).getD dflt)
  | _ => none

/-- Python `v.get(k)` (single-argument form): the inner `Option` is the
Python `None` result for an absent key. -/
def ygetOne (v : Yaml) (k : String) : Option (Option Yaml) :=
  match v with
  | .map d => some (List.lookup k d)
  | _ => none

/-- Python `len(v)`: defined for strings, sequences and mappings,
a TypeError (`none`) otherwise. -/
def pyLen (v : Yaml) : Option Nat :=
  match v with
  | .s str => some str.length
  | .seq xs => some xs.length
  | .map d => some d.length
  | _ => none

/-- Python `v[0]`: the first element of a sequence, the first character
of a string (as a one-character string); an error on anything else
(integer indexing of a mapping raises KeyError). -/
def pyIndex0 (v : Yaml) : Option Yaml :=
  match v with
  | .s str => (str.data.head?).map (fun c => Yaml.s ⟨[c]⟩)
  | .seq xs => xs.head?
  | _ => none

/-- Splits a character list at every occurrence of `sep`, exactly as the
Python split method does for a one-character separator: the result is
never empty and an input without `sep` yields a singleton. -/
def splitChars (sep : Char) : List Char → List (List Char)
  | [] => [[]]
  | c :: cs =>
    match splitChars sep cs with
    | [] => [[]]
    | r :: rs => if c = sep then [] :: r :: rs else (c :: r) :: rs

/-- Python `v.split(":")`: only strings have a split method; anything
else raises AttributeError (`none`). -/
def ysplitColon (v : Yaml) : Option (List String) :=
  match v with
  | .s str => some ((splitChars ':' str.data).map (fun l => (⟨l⟩ : String)))
  | _ => none

/-- Field lookup inside a YAML mapping value (`doc[k]` after a shape
check), used to state properties of emitted documents. -/
def yfield (v : Yaml) (k : String) : Option Yaml :=
  match v with
  | .map d => List.lookup k d
  | _ => none

/-- The keys of a YAML mapping, in emission order. -/
def ymapKeys (v : Yaml) : Option (List String) :=
  match v with
  | .map d => some (d.map Prod.fst)
  | _ => none

/-- Field `fld` of service `svc` in a model. -/
def modelField (m : Model) (svc fld : String) : Option Yaml :=
  (List.lookup svc m).bind (fun r => List.lookup fld r)

/-- The default record for the justicar service (`DEFAULT_CONFIG`, lines 22–26). -/
def defaultJusticarRec : Record :=
  [("port", .s "1309"),
   ("configuration file", .s "/opt/cd2n/justicar"),
   ("name", .s "justicar")]

/-- The default record for the chain service (`DEFAULT_CONFIG`, lines 27–32),
with the field order of the source. -/
def defaultChainRec : Record :=
  [("name", .s "cess-chain"),
   ("port", .s "9944"),
   ("network", .s "testnet"),
   ("configuration file", .s "/opt/cd2n/chain")]

/-- `DEFAULT_CONFIG` of the source (lines 21–33). -/
def DEFAULT_CONFIG : Model :=
  [("justicar", defaultJusticarRec), ("chain", defaultChainRec)]

/-- `DEFAULT_CONFIG[svc][fld]`; both levels are present for the keys the
source uses, so the `.null` fallback is never reached there. -/
def defaultField (svc fld : String) : Yaml :=
  (modelField DEFAULT_CONFIG svc fld).getD .null

/-- Lines 50–58 of the source, for key `ports` or `volumes`:
`v = service_data.get(key, dflt); if len(v) > 0: v = v[0].split(":")[0]`.
Note that when the key is absent the default — a string — is itself
indexed and split, and that a present-but-empty sequence is returned
unchanged. -/
def extractField (service_data : Yaml) (key : String) (dflt : Yaml) : Option Yaml := do
  let v ← yget service_data key dflt
  let n ← pyLen v
  if 0 < n then
    let x ← pyIndex0 v
    let parts ← ysplitColon x
    let h ← parts.head?
    pure (.s h)
  else
    pure v

/-- The justicar arm of the loader loop (lines 48–66). -/
def loadJusticar (data : Yaml) : Option Record := do
  let services ← yget data "services" (.map [])
  let service_data ← yget services "justicar" (.map [])
  let ports ← extractField service_data "ports" (defaultField "justicar" "port")
  let conf ← extractField service_data "volumes" (defaultField "justicar" "configuration file")
  let name ← yget service_data "container_name" (defaultField "justicar" "name")
  pure [("port", ports), ("configuration file", conf), ("name", name)]

/-- The chain arm of the loader loop (lines 48–79): as justicar, plus
the network tag taken from the piece after the first colon of the image
field (`image.split(":")[1]`, an IndexError when the tag has no colon),
defaulting to the built-in network when the image field is absent. -/
def loadChain (data : Yaml) : Option Record := do
  let services ← yget data "services" (.map [])
  let service_data ← yget services "chain" (.map [])
  let ports ← extractField service_data "ports" (defaultField "chain" "port")
  let conf ← extractField service_data "volumes" (defaultField "chain" "configuration file")
  let image ← ygetOne service_data "image"
  let network ← match image with
    | some img => do
      let parts ← ysplitColon img
      match parts with
      | _ :: x :: _ => pure (Yaml.s x)
      | _ => none
    | none => pure (defaultField "chain" "network")
  let name ← yget service_data "container_name" (defaultField "chain" "name")
  pure [("port", ports), ("configuration file", conf), ("name", name), ("network", network)]

/-- The body of the try block of `load_config_from_docker_compose`
(lines 47–85): the loop over the `DEFAULT_CONFIG` keys unrolled over the
fixed key list justicar, chain, building `new_config` by dict
assignment; `none` models any exception escaping to the handler. -/
def load_config_body (data : Yaml) : Option Model := do
  let j ← loadJusticar data
  let c ← loadChain data
  pure (dinsert (dinsert ([] : Model) "justicar" j) "chain" c)

/-- The observable input of one call to the loader: the path does not
exist, or opening and parsing raises, or parsing succeeds with a YAML
value (an empty file parses to null). -/
inductive LoadInput where
  | missingPath
  | parseError
  | parsed (data : Yaml)

/-- `load_config_from_docker_compose` (lines 36–88): returns a copy of
`DEFAULT_CONFIG` for a missing path and whenever the try body raises,
and the freshly built model otherwise. -/
def load_config_from_docker_compose : LoadInput → Model
  | .missingPath => DEFAULT_CONFIG
  | .parseError => DEFAULT_CONFIG
  | .parsed data => (load_config_body data).getD DEFAULT_CONFIG

/-- The fixed startup-argument list synthesized for the chain service
(lines 120–148). -/
def chainCommand (network : String) : List String :=
  ["--base-path", "/opt/cess/data",
   "--chain", "cess-" ++ network,
   "--port", "30336",
   "--name", "cess",
   "--rpc-port", "9944",
   "--execution", "WASM",
   "--wasm-execution", "compiled",
   "--in-peers", "75",
   "--out-peers", "75",
   "--rpc-max-response-size", "32",
   "--pruning", "archive",
   "--rpc-external",
   "--rpc-methods", "unsafe",
   "--rpc-cors", "all"]

/-- The fixed logging block of the chain service (lines 149–155). -/
def chainLogging : Yaml :=
  .map [("driver", .s "json-file"),
        ("options", .map [("max-size", .s "300m"), ("max-file", .s "10")])]

/-- The service definition synthesized for justicar (lines 96–112);
`none` models a KeyError or TypeError raised while reading the record. -/
def justicarService (r : Record) : Option Yaml := do
  let name ← rget r "name"
  let port ← strField r "port"
  let conf ← strField r "configuration file"
  pure (.map
    [("image", .s "cdn:latest"),
     ("container_name", name),
     ("devices", .seq [.s "/dev/sgx_enclave:/dev/sgx_enclave",
                       .s "/dev/sgx_provision:/dev/sgx_provision"]),
     ("ports", .seq [.s (port ++ ":1309")]),
     ("volumes", .seq [.s (conf ++ ":/opt/justicar/backups")]),
     ("networks", .seq [.s "cd2n"]),
     ("stdin_open", .b true),
     ("tty", .b true)])

/-- The service definition synthesized for chain (lines 113–159). -/
def chainService (r : Record) : Option Yaml := do
  let network ← strField r "network"
  let conf ← strField r "configuration file"
  let name ← rget r "name"
  let port ← strField r "port"
  pure (.map
    [("image", .s ("cesslab/cess-chain:" ++ network)),
     ("volumes", .seq [.s (conf ++ ":/opt/cess/data")]),
     ("command", .seq ((chainCommand network).map .s)),
     ("logging", chainLogging),
     ("networks", .seq [.s "cd2n"]),
     ("container_name", name),
     ("ports", .seq [.s (port ++ ":9944"), .s "30336:30336"])])

/-- The loop of `save_config_to_docker_compose` over the model entries
(lines 93–161), threading the services dict being built; an unsupported
service name is logged and skipped. -/
def saveServicesAux (acc : List (String × Yaml)) : Model → Option (List (String × Yaml))
  | [] => some acc
  | (sname, r) :: rest =>
    if sname = "justicar" then do
      let v ← justicarService r
      saveServicesAux (dinsert acc sname v) rest
    else if sname = "chain" then do
      let v ← chainService r
      saveServicesAux (dinsert acc sname v) rest
    else
      saveServicesAux acc rest

/-- The services mapping built by the saver. -/
def saveServices (config : Model) : Option (List (String × Yaml)) :=
  saveServicesAux [] config

/-- The fixed networks block of every emitted document (lines 166–171). -/
def fixedNetworks : Yaml :=
  .map [("cd2n", .map [("name", .s "cd2n"), ("driver", .s "bridge")])]

/-- `save_config_to_docker_compose` (lines 91–176): the full
`docker_compose_data` document the function dumps to the file, `none`
modelling an exception raised while synthesizing a service entry.
`yaml.safe_dump` followed by `yaml.safe_load` (with sort_keys disabled)
round-trips the value unchanged, so reading the written file back is
modelled as handing this document to the loader. -/
def save_config_to_docker_compose (config : Model) : Option Yaml :=
  (saveServices config).map (fun services =>
    .map [("version", .s "3.9"),
          ("services", .map services),
          ("networks", fixedNetworks)])

/-- `ConfigScreen.action_save_config` (lines 227–237) up to the save
call: every input field value overwrites the scratch record, then the
scratch record replaces the entry of the edited service in the app
model. -/
def action_save_config (appConfig : Model) (service_name : String)
    (current_config : Record) (input_fields : List (String × String)) : Model :=
  let current := input_fields.foldl (fun c kv => dinsert c kv.1 (.s kv.2)) current_config
  dinsert appConfig service_name current

/-- One commit transition: the model update of `action_save_config`
followed by the attempted save; `ioFails = true` models
`save_config_to_docker_compose` raising an I/O error (`Except.error`),
which happens after the model was updated and does not touch it. -/
def commitStep (appConfig : Model) (service_name : String)
    (current_config : Record) (input_fields : List (String × String))
    (ioFails : Bool) : Model × Except Unit (Option Yaml) :=
  let newConfig := action_save_config appConfig service_name current_config input_fields
  (newConfig, if ioFails then .error () else .ok (save_config_to_docker_compose newConfig))

/-- The number of adjacent occurrences of the pair `a, b` in a list. -/
def countPairs (a b : String) : List String → Nat
  | x :: y :: rest => (if x = a ∧ y = b then 1 else 0) + countPairs a b (y :: rest)
  | _ => 0

/-- A well-formed configuration model in the output shape of the loader,
determined by its seven field values. -/
def mkConfig (jport jconf jname cport cconf cname cnetwork : String) : Model :=
  [("justicar", [("port", .s jport), ("configuration file", .s jconf), ("name", .s jname)]),
   ("chain", [("port", .s cport), ("configuration file", .s cconf), ("name", .s cname),
              ("network", .s cnetwork)])]

/-- The justicar service definition the saver emits for a record whose
name field holds `N` and whose port and configuration-file fields hold
the strings `port` and `conf` (the output shape of `justicarService`,
used to factor the proofs). -/
def savedJusticarFields (N : Yaml) (port conf : String) : List (String × Yaml) :=
  [("image", .s "cdn:latest"),
   ("container_name", N),
   ("devices", .seq [.s "/dev/sgx_enclave:/dev/sgx_enclave",
                     .s "/dev/sgx_provision:/dev/sgx_provision"]),
   ("ports", .seq [.s (port ++ ":1309")]),
   ("volumes", .seq [.s (conf ++ ":/opt/justicar/backups")]),
   ("networks", .seq [.s "cd2n"]),
   ("stdin_open", .b true),
   ("tty", .b true)]

/-- The chain service definition the saver emits for a record with name
value `N`, network `net`, configuration file `conf` and port `port`. -/
def savedChainFields (N : Yaml) (net conf port : String) : List (String × Yaml) :=
  [("image", .s ("cesslab/cess-chain:" ++ net)),
   ("volumes", .seq [.s (conf ++ ":/opt/cess/data")]),
   ("command", .seq ((chainCommand net).map .s)),
   ("logging", chainLogging),
   ("networks", .seq [.s "cd2n"]),
   ("container_name", N),
   ("ports", .seq [.s (port ++ ":9944"), .s "30336:30336"])]

/-- The full document the saver emits for `mkConfig jp jc jn cp cc cn cnet`. -/
def savedDoc (jp jc jn cp cc cn cnet : String) : Yaml :=
  .map [("version", .s "3.9"),
        ("services", .map [("justicar", .map (savedJusticarFields (.s jn) jp jc)),
                           ("chain", .map (savedChainFields (.s cn) cnet cc cp))]),
        ("networks", fixedNetworks)]

/-- Reads `doc["services"][svc][fld]` from an emitted document. -/
def docServiceField (doc : Yaml) (svc fld : String) : Option Yaml :=
  (yfield doc "services").bind (fun s => (yfield s svc).bind (fun e => yfield e fld))

/-- The object graph of `DEFAULT_CONFIG` at module load: two mutable
service-record dictionaries, addressed by cells 0 (justicar) and 1
(chain).  Field mutation of a record is an update of the cell it lives
in; this reference-level view makes the aliasing behavior of the source
statable. -/
def heapTemplate : List (Nat × Record) :=
  [(0, defaultJusticarRec), (1, defaultChainRec)]

/-- The top-level `DEFAULT_CONFIG` dict: service name to record cell. -/
def defaultConfigRefs : List (String × Nat) :=
  [("justicar", 0), ("chain", 1)]

/-- The Python dict copy method: a fresh top-level dict holding the same
entries — the record cells are shared with the original, not duplicated. -/
def dictCopy (d : List (String × Nat)) : List (String × Nat) := d

/-- What `load_config_from_docker_compose` returns for a missing path at
the reference level: `DEFAULT_CONFIG.copy()` (line 42). -/
def loadDefaultRefs : List (String × Nat) := dictCopy defaultConfigRefs

/-- Mutating field `k` of the record in cell `c` (`record[k] = v`). -/
def heapSetField (h : List (Nat × Record)) (c : Nat) (k : String) (v : Yaml) :
    List (Nat × Record) :=
  h.map (fun p => if p.1 == c then (p.1, dinsert p.2 k v) else p)

/-- Reading a reference-level model back as a value-level `Model`. -/
def derefModel (h : List (Nat × Record)) (d : List (String × Nat)) : Model :=
  d.map (fun p => (p.1, (List.lookup p.2 h).getD []))

theorem splitChars_ne_nil (sep : Char) (xs : List Char) : splitChars sep xs ≠ [] := by
  induction xs with
  | nil => simp [splitChars]
  | cons c cs ih =>
    simp only [splitChars]
    cases h : splitChars sep cs with
    | nil => simp
    | cons r rs => by_cases hc : c = sep <;> simp [hc]

theorem splitChars_of_not_mem (sep : Char) (xs : List Char) (h : sep ∉ xs) :
    splitChars sep xs = [xs] := by
  induction xs with
  | nil => rfl
  | cons c cs ih =>
    simp only [List.mem_cons, not_or] at h
    simp only [splitChars, ih h.2]
    simp [Ne.symm h.1]

theorem splitChars_append_cons (sep : Char) (xs ys : List Char) (h : sep ∉ xs) :
    splitChars sep (xs ++ sep :: ys) = xs :: splitChars sep ys := by
  induction xs with
  | nil =>
    simp only [List.nil_append, splitChars]
    cases hy : splitChars sep ys with
    | nil => exact absurd hy (splitChars_ne_nil sep ys)
    | cons r rs => simp
  | cons c cs ih =>
    simp only [List.mem_cons, not_or] at h
    rw [List.cons_append, splitChars, ih h.2]
    simp [Ne.symm h.1]

theorem ysplitColon_tag (pre net : String) (hpre : ':' ∉ pre.data) (hnet : ':' ∉ net.data) :
    ysplitColon (.s (pre ++ ":" ++ net)) = some [pre, net] := by
  have hdata : (pre ++ ":" ++ net).data = pre.data ++ ':' :: net.data := by
    simp [String.data_append]
  simp only [ysplitColon, hdata, splitChars_append_cons ':' pre.data net.data hpre,
    splitChars_of_not_mem ':' net.data hnet, List.map]

theorem extractField_seq_first (sd : List (String × Yaml)) (key : String) (dflt : Yaml)
    (s t : String) (ts : List Char) (rest : List Yaml)
    (hk : List.lookup key sd = some (.seq (.s (s ++ t) :: rest)))
    (hs : ':' ∉ s.data) (ht : t.data = ':' :: ts) :
    extractField (.map sd) key dflt = some (.s s) := by
  have hdata : (s ++ t).data = s.data ++ ':' :: ts := by
    simp [String.data_append, ht]
  simp only [extractField, yget, hk, Option.getD_some, pyLen, pyIndex0, ysplitColon,
    hdata, splitChars_append_cons ':' s.data ts hs]
  simp [ht, splitChars_append_cons ':' s.data ts hs]

theorem loadJusticar_eq (data services sd P V N : Yaml)
    (hserv : yget data "services" (.map []) = some services)
    (hsd : yget services "justicar" (.map []) = some sd)
    (hports : extractField sd "ports" (defaultField "justicar" "port") = some P)
    (hvol : extractField sd "volumes" (defaultField "justicar" "configuration file") = some V)
    (hname : yget sd "container_name" (defaultField "justicar" "name") = some N) :
    loadJusticar data = some [("port", P), ("configuration file", V), ("name", N)] := by
  simp only [loadJusticar, hserv, hsd, hports, hvol, hname, Option.bind_some,
    Option.some_bind, bind, Option.bind]
  rfl

theorem loadChain_eq (data services sd P V N : Yaml) (img : Yaml) (pre net : String)
    (restL : List String)
    (hserv : yget data "services" (.map []) = some services)
    (hsd : yget services "chain" (.map []) = some sd)
    (hports : extractField sd "ports" (defaultField "chain" "port") = some P)
    (hvol : extractField sd "volumes" (defaultField "chain" "configuration file") = some V)
    (himg : ygetOne sd "image" = some (some img))
    (hsplit : ysplitColon img = some (pre :: net :: restL))
    (hname : yget sd "container_name" (defaultField "chain" "name") = some N) :
    loadChain data = some [("port", P), ("configuration file", V), ("name", N),
      ("network", .s net)] := by
  simp only [loadChain, hserv, hsd, hports, hvol, himg, hsplit, hname, Option.bind_some,
    Option.some_bind, bind, Option.bind]
  rfl

theorem justicarService_eq (r : Record) (N : Yaml) (P C : String)
    (hname : rget r "name" = some N)
    (hport : strField r "port" = some P)
    (hconf : strField r "configuration file" = some C) :
    justicarService r = some (.map (savedJusticarFields N P C)) := by
  simp only [justicarService, hname, hport, hconf, Option.some_bind, bind, Option.bind]
  rfl

theorem chainService_eq (r : Record) (N : Yaml) (NET C P : String)
    (hnet : strField r "network" = some NET)
    (hconf : strField r "configuration file" = some C)
    (hname : rget r "name" = some N)
    (hport : strField r "port" = some P) :
    chainService r = some (.map (savedChainFields N NET C P)) := by
  simp only [chainService, hnet, hconf, hname, hport, Option.some_bind, bind, Option.bind]
  rfl

/-- C1: Round-trip stability.  For any well-formed model whose service
keys are exactly justicar and chain and whose field values are
colon-free strings, loading the document produced by the saver yields
the same model again, the chain network being re-derived from the
synthesized image tag. -/
theorem load_save_round_trip (jp jc jn cp cc cn cnet : String)
    (h1 : ':' ∉ jp.data) (h2 : ':' ∉ jc.data) (_h3 : ':' ∉ jn.data)
    (h4 : ':' ∉ cp.data) (h5 : ':' ∉ cc.data) (_h6 : ':' ∉ cn.data)
    (h7 : ':' ∉ cnet.data) :
    (save_config_to_docker_compose (mkConfig jp jc jn cp cc cn cnet)).map
      (fun doc => load_config_from_docker_compose (.parsed doc)) =
    some (mkConfig jp jc jn cp cc cn cnet) := by
  have hsave : save_config_to_docker_compose (mkConfig jp jc jn cp cc cn cnet) =
      some (savedDoc jp jc jn cp cc cn cnet) := rfl
  rw [hsave, Option.map_some']
  refine congrArg some ?_
  have hj : loadJusticar (savedDoc jp jc jn cp cc cn cnet) =
      some [("port", .s jp), ("configuration file", .s jc), ("name", .s jn)] :=
    loadJusticar_eq (savedDoc jp jc jn cp cc cn cnet)
      (.map [("justicar", .map (savedJusticarFields (.s jn) jp jc)),
             ("chain", .map (savedChainFields (.s cn) cnet cc cp))])
      (.map (savedJusticarFields (.s jn) jp jc)) (.s jp) (.s jc) (.s jn) rfl rfl
      (extractField_seq_first (savedJusticarFields (.s jn) jp jc) "ports"
        (defaultField "justicar" "port") jp ":1309" "1309".data [] rfl h1 rfl)
      (extractField_seq_first (savedJusticarFields (.s jn) jp jc) "volumes"
        (defaultField "justicar" "configuration file") jc ":/opt/justicar/backups"
        "/opt/justicar/backups".data [] rfl h2 rfl)
      rfl
  have hsplit : ysplitColon (.s ("cesslab/cess-chain:" ++ cnet)) =
      some ["cesslab/cess-chain", cnet] :=
    ysplitColon_tag "cesslab/cess-chain" cnet (by decide) h7
  have hc : loadChain (savedDoc jp jc jn cp cc cn cnet) =
      some [("port", .s cp), ("configuration file", .s cc), ("name", .s cn),
            ("network", .s cnet)] :=
    loadChain_eq (savedDoc jp jc jn cp cc cn cnet)
      (.map [("justicar", .map (savedJusticarFields (.s jn) jp jc)),
             ("chain", .map (savedChainFields (.s cn) cnet cc cp))])
      (.map (savedChainFields (.s cn) cnet cc cp)) (.s cp) (.s cc) (.s cn)
      (.s ("cesslab/cess-chain:" ++ cnet)) "cesslab/cess-chain" cnet [] rfl rfl
      (extractField_seq_first (savedChainFields (.s cn) cnet cc cp) "ports"
        (defaultField "chain" "port") cp ":9944" "9944".data [.s "30336:30336"] rfl h4 rfl)
      (extractField_seq_first (savedChainFields (.s cn) cnet cc cp) "volumes"
        (defaultField "chain" "configuration file") cc ":/opt/cess/data"
        "/opt/cess/data".data [] rfl h5 rfl)
      rfl hsplit rfl
  show (load_config_body (savedDoc jp jc jn cp cc cn cnet)).getD DEFAULT_CONFIG =
    mkConfig jp jc jn cp cc cn cnet
  simp only [load_config_body, hj, hc, Option.some_bind, bind, Option.bind]
  rfl

/-- Witness for C1 at the default field values. -/
theorem load_save_round_trip_witness :
    (save_config_to_docker_compose (mkConfig "1309" "/opt/cd2n/justicar" "justicar"
      "9944" "/opt/cd2n/chain" "cess-chain" "testnet")).map
      (fun doc => load_config_from_docker_compose (.parsed doc)) =
    some (mkConfig "1309" "/opt/cd2n/justicar" "justicar" "9944" "/opt/cd2n/chain"
      "cess-chain" "testnet") :=
  load_save_round_trip "1309" "/opt/cd2n/justicar" "justicar" "9944" "/opt/cd2n/chain"
    "cess-chain" "testnet" (by decide) (by decide) (by decide) (by decide) (by decide)
    (by decide) (by decide)

/-- C2 counterexample: a missing path and an empty file both yield the
default model, but an existing parseable document without a services key
does not — its justicar port is the one-character string made of the
first character of the default port — so the claimed mutual equality of
the three results fails. -/
theorem default_fallback_counterexample :
    load_config_from_docker_compose .missingPath = DEFAULT_CONFIG ∧
    load_config_from_docker_compose (.parsed .null) = DEFAULT_CONFIG ∧
    load_config_from_docker_compose (.parsed (.map [("version", Yaml.s "3.9")])) ≠
      DEFAULT_CONFIG := by
  refine ⟨rfl, rfl, fun h => ?_⟩
  have h2 : (some (Yaml.s "1") : Option Yaml) = some (Yaml.s "1309") :=
    congrArg (fun m => modelField m "justicar" "port") h
  exact absurd (Yaml.s.inj (Option.some.inj h2)) (by decide)

/-- C2 amended: a nonexistent path and an empty file both yield the
built-in default model, and those two results are equal; a parseable
file missing the services key instead yields records whose port and
configuration-file values are the first character of the respective
defaults (and the default chain network), not the default model. -/
theorem default_fallback_amended :
    load_config_from_docker_compose .missingPath = DEFAULT_CONFIG ∧
    load_config_from_docker_compose (.parsed .null) = DEFAULT_CONFIG ∧
    load_config_from_docker_compose (.parsed (.map [("version", Yaml.s "3.9")])) =
      [("justicar", [("port", Yaml.s "1"), ("configuration file", Yaml.s "/"),
                     ("name", Yaml.s "justicar")]),
       ("chain", [("port", Yaml.s "9"), ("configuration file", Yaml.s "/"),
                  ("name", Yaml.s "cess-chain"), ("network", Yaml.s "testnet")])] :=
  ⟨rfl, rfl, rfl⟩

/-- C3 counterexample: for a service entry that carries an empty ports
sequence, the loaded record holds the empty sequence itself as the port
value, not the built-in default port string the claim requires. -/
theorem empty_sequence_counterexample :
    modelField (load_config_from_docker_compose (.parsed (.map [("services", .map
      [("justicar", .map [("ports", Yaml.seq []), ("volumes", Yaml.seq [Yaml.s "/a:/b"]),
        ("container_name", Yaml.s "jj")])])]))) "justicar" "port" = some (Yaml.seq []) ∧
    modelField (load_config_from_docker_compose (.parsed (.map [("services", .map
      [("justicar", .map [("ports", Yaml.seq []), ("volumes", Yaml.seq [Yaml.s "/a:/b"]),
        ("container_name", Yaml.s "jj")])])]))) "justicar" "port" ≠ some (Yaml.s "1309") := by
  refine ⟨rfl, fun h => ?_⟩
  have h2 : (some (Yaml.seq []) : Option Yaml) = some (Yaml.s "1309") := h
  exact Yaml.noConfusion (Option.some.inj h2)

/-- C3 amended: a service entry with an empty ports or volumes sequence
does not make the loader raise (the try body returns a model), and the
affected field keeps the present-but-empty sequence itself — not the
default — while the other fields are extracted normally. -/
theorem empty_sequence_amended :
    load_config_body (.map [("services", .map
      [("justicar", .map [("ports", Yaml.seq []), ("volumes", Yaml.seq [Yaml.s "/a:/b"]),
        ("container_name", Yaml.s "jj")]),
       ("chain", .map [("ports", Yaml.seq [Yaml.s "9:9944"]), ("volumes", Yaml.seq []),
        ("container_name", Yaml.s "cc"), ("image", Yaml.s "x:testnet")])])]) =
    some [("justicar", [("port", Yaml.seq []), ("configuration file", Yaml.s "/a"),
            ("name", Yaml.s "jj")]),
          ("chain", [("port", Yaml.s "9"), ("configuration file", Yaml.seq []),
            ("name", Yaml.s "cc"), ("network", Yaml.s "testnet")])] ∧
    load_config_from_docker_compose (.parsed (.map [("services", .map
      [("justicar", .map [("ports", Yaml.seq []), ("volumes", Yaml.seq [Yaml.s "/a:/b"]),
        ("container_name", Yaml.s "jj")]),
       ("chain", .map [("ports", Yaml.seq [Yaml.s "9:9944"]), ("volumes", Yaml.seq []),
        ("container_name", Yaml.s "cc"), ("image", Yaml.s "x:testnet")])])])) =
    [("justicar", [("port", Yaml.seq []), ("configuration file", Yaml.s "/a"),
       ("name", Yaml.s "jj")]),
     ("chain", [("port", Yaml.s "9"), ("configuration file", Yaml.seq []),
       ("name", Yaml.s "cc"), ("network", Yaml.s "testnet")])] :=
  ⟨rfl, rfl⟩

/-- C4: Commit isolates failure.  The model produced by the commit
transition holds the edited port value whether or not the save raises
(the equation holds for either value of `ioFails`, and the update is
applied before the save is attempted), and a subsequent successful save
of that model emits a document whose justicar ports entry carries the
edited value. -/
theorem commit_isolates_failure (rc : Record) (port0 conf0 name0 p : String) (ioFails : Bool)
    (hc : (chainService rc).isSome = true) :
    (commitStep
      [("justicar", [("port", Yaml.s port0), ("configuration file", Yaml.s conf0),
        ("name", Yaml.s name0)]), ("chain", rc)]
      "justicar"
      [("port", Yaml.s port0), ("configuration file", Yaml.s conf0), ("name", Yaml.s name0)]
      [("port", p)] ioFails).1 =
      [("justicar", [("port", Yaml.s p), ("configuration file", Yaml.s conf0),
        ("name", Yaml.s name0)]), ("chain", rc)] ∧
    (save_config_to_docker_compose
      (commitStep
        [("justicar", [("port", Yaml.s port0), ("configuration file", Yaml.s conf0),
          ("name", Yaml.s name0)]), ("chain", rc)]
        "justicar"
        [("port", Yaml.s port0), ("configuration file", Yaml.s conf0), ("name", Yaml.s name0)]
        [("port", p)] ioFails).1).bind
      (fun doc => docServiceField doc "justicar" "ports") =
      some (.seq [.s (p ++ ":1309")]) := by
  obtain ⟨cv, hcv⟩ := Option.isSome_iff_exists.mp hc
  refine ⟨rfl, ?_⟩
  have h1 : saveServices
      [("justicar", [("port", Yaml.s p), ("configuration file", Yaml.s conf0),
        ("name", Yaml.s name0)]), ("chain", rc)] =
      (chainService rc).bind (fun v =>
        some [("justicar", .map (savedJusticarFields (.s name0) p conf0)), ("chain", v)]) := rfl
  show (save_config_to_docker_compose
      [("justicar", [("port", Yaml.s p), ("configuration file", Yaml.s conf0),
        ("name", Yaml.s name0)]), ("chain", rc)]).bind
      (fun doc => docServiceField doc "justicar" "ports") = some (.seq [.s (p ++ ":1309")])
  simp only [save_config_to_docker_compose, h1, hcv, Option.some_bind, bind, Option.bind,
    Option.map_some']
  rfl

/-- Witness for C4: editing the justicar port to 9999 while the save
raises still leaves the edit in the model and in the next document. -/
theorem commit_isolates_failure_witness :
    (commitStep
      [("justicar", [("port", Yaml.s "1309"), ("configuration file", Yaml.s "/opt/cd2n/justicar"),
        ("name", Yaml.s "justicar")]), ("chain", defaultChainRec)]
      "justicar"
      [("port", Yaml.s "1309"), ("configuration file", Yaml.s "/opt/cd2n/justicar"),
        ("name", Yaml.s "justicar")]
      [("port", "9999")] true).1 =
      [("justicar", [("port", Yaml.s "9999"), ("configuration file", Yaml.s "/opt/cd2n/justicar"),
        ("name", Yaml.s "justicar")]), ("chain", defaultChainRec)] ∧
    (save_config_to_docker_compose
      (commitStep
        [("justicar", [("port", Yaml.s "1309"), ("configuration file", Yaml.s "/opt/cd2n/justicar"),
          ("name", Yaml.s "justicar")]), ("chain", defaultChainRec)]
        "justicar"
        [("port", Yaml.s "1309"), ("configuration file", Yaml.s "/opt/cd2n/justicar"),
          ("name", Yaml.s "justicar")]
        [("port", "9999")] true).1).bind
      (fun doc => docServiceField doc "justicar" "ports") =
      some (.seq [.s ("9999" ++ ":1309")]) :=
  commit_isolates_failure defaultChainRec "1309" "/opt/cd2n/justicar" "justicar" "9999" true rfl

/-- C5: Key-set and order invariant of the loader.  For every input —
including documents that carry extra unknown service keys in any order —
the returned model has exactly the keys justicar and chain, in that
fixed declaration order, so unknown keys never appear in the model and
never abort the load. -/
theorem load_keys_order (inp : LoadInput) :
    (load_config_from_docker_compose inp).map Prod.fst = ["justicar", "chain"] := by
  cases inp with
  | missingPath => rfl
  | parseError => rfl
  | parsed data =>
    show ((load_config_body data).getD DEFAULT_CONFIG).map Prod.fst = ["justicar", "chain"]
    cases hj : loadJusticar data with
    | none => simp [load_config_body, hj, DEFAULT_CONFIG]
    | some j =>
      cases hc : loadChain data with
      | none => simp [load_config_body, hj, hc, DEFAULT_CONFIG]
      | some c => simp [load_config_body, hj, hc, dinsert]

/-- C6: Verbatim argument contract.  For every chain record whose
network field is the string testnet (and whose other fields are
readable), the service definition the saver synthesizes carries exactly
the fixed command list, which contains the element chain-flag
immediately followed by cess-testnet and exactly one adjacent pair of
base-path flag and /opt/cess/data. -/
theorem chain_command_contract (r : Record) (N : Yaml) (C P : String)
    (hnet : strField r "network" = some "testnet")
    (hconf : strField r "configuration file" = some C)
    (hname : rget r "name" = some N)
    (hport : strField r "port" = some P) :
    (chainService r).bind (fun v => yfield v "command") =
      some (.seq ((chainCommand "testnet").map .s)) ∧
    List.IsInfix ["--chain", "cess-testnet"] (chainCommand "testnet") ∧
    countPairs "--base-path" "/opt/cess/data" (chainCommand "testnet") = 1 := by
  refine ⟨?_, ⟨["--base-path", "/opt/cess/data"], (chainCommand "testnet").drop 4, by decide⟩,
    by decide⟩
  rw [chainService_eq r N "testnet" C P hnet hconf hname hport]
  rfl

/-- Witness for C6 at the default chain record. -/
theorem chain_command_contract_witness :
    (chainService defaultChainRec).bind (fun v => yfield v "command") =
      some (.seq ((chainCommand "testnet").map .s)) ∧
    List.IsInfix ["--chain", "cess-testnet"] (chainCommand "testnet") ∧
    countPairs "--base-path" "/opt/cess/data" (chainCommand "testnet") = 1 :=
  chain_command_contract defaultChainRec (Yaml.s "cess-chain") "/opt/cd2n/chain" "9944"
    rfl rfl rfl rfl

/-- C7: Loader total-recovery contract.  Every input yields a model:
either the try body succeeded and its model is returned, or the result
is the built-in default model; in particular a chain image tag with no
colon makes the body raise (return none) and the loader falls back to
the default model. -/
theorem load_total_recovery :
    (∀ inp, load_config_from_docker_compose inp = DEFAULT_CONFIG ∨
      ∃ data, inp = .parsed data ∧
        load_config_body data = some (load_config_from_docker_compose inp)) ∧
    load_config_body (.map [("services", .map
      [("chain", .map [("image", Yaml.s "latest")])])]) = none ∧
    load_config_from_docker_compose (.parsed (.map [("services", .map
      [("chain", .map [("image", Yaml.s "latest")])])])) = DEFAULT_CONFIG := by
  refine ⟨fun inp => ?_, rfl, rfl⟩
  cases inp with
  | missingPath => exact Or.inl rfl
  | parseError => exact Or.inl rfl
  | parsed data =>
    cases h : load_config_body data with
    | none =>
      left
      show (load_config_body data).getD DEFAULT_CONFIG = DEFAULT_CONFIG
      rw [h]
      rfl
    | some m =>
      right
      refine ⟨data, rfl, ?_⟩
      show load_config_body data = some ((load_config_body data).getD DEFAULT_CONFIG)
      rw [h]
      rfl

/-- C8: Unsupported key skip.  A model holding the two supported service
records plus a third record under any other key saves without raising,
and the emitted document materializes exactly the justicar and chain
service definitions together with the single fixed bridge network
block. -/
theorem save_skips_unsupported (rj rc rx : Record) (k : String) (Nj Nc : Yaml)
    (Pj Cj NETc Cc Pc : String)
    (hk1 : k ≠ "justicar") (hk2 : k ≠ "chain")
    (hjn : rget rj "name" = some Nj) (hjp : strField rj "port" = some Pj)
    (hjc : strField rj "configuration file" = some Cj)
    (hcn : strField rc "network" = some NETc)
    (hcc : strField rc "configuration file" = some Cc)
    (hcm : rget rc "name" = some Nc) (hcp : strField rc "port" = some Pc) :
    save_config_to_docker_compose [("justicar", rj), ("chain", rc), (k, rx)] =
      some (.map [("version", .s "3.9"),
        ("services", .map [("justicar", .map (savedJusticarFields Nj Pj Cj)),
                           ("chain", .map (savedChainFields Nc NETc Cc Pc))]),
        ("networks", fixedNetworks)]) := by
  have hj := justicarService_eq rj Nj Pj Cj hjn hjp hjc
  have hc := chainService_eq rc Nc NETc Cc Pc hcn hcc hcm hcp
  simp only [save_config_to_docker_compose, saveServices, saveServicesAux, hj, hc,
    if_neg hk1, if_neg hk2, Option.some_bind, bind, Option.bind, Option.map_some']
  rfl

/-- Witness for C8 with the default records and an extra key. -/
theorem save_skips_unsupported_witness :
    save_config_to_docker_compose
      [("justicar", defaultJusticarRec), ("chain", defaultChainRec),
       ("other", [("port", Yaml.s "1")])] =
      some (.map [("version", .s "3.9"),
        ("services", .map
          [("justicar", .map (savedJusticarFields (.s "justicar") "1309" "/opt/cd2n/justicar")),
           ("chain", .map (savedChainFields (.s "cess-chain") "testnet" "/opt/cd2n/chain" "9944"))]),
        ("networks", fixedNetworks)]) :=
  save_skips_unsupported defaultJusticarRec defaultChainRec [("port", Yaml.s "1")] "other"
    (Yaml.s "justicar") (Yaml.s "cess-chain") "1309" "/opt/cd2n/justicar" "testnet"
    "/opt/cd2n/chain" "9944" (by decide) (by decide) rfl rfl rfl rfl rfl rfl rfl

/-- C9 counterexample: the default model is returned as a shallow copy
(the dict copy method), so mutating the port field of the justicar
record reached through a default-returning load changes the default
template itself — the template does not stay unchanged as claimed. -/
theorem default_copy_counterexample :
    derefModel heapTemplate defaultConfigRefs = DEFAULT_CONFIG ∧
    derefModel (heapSetField heapTemplate
      ((List.lookup "justicar" loadDefaultRefs).getD 0) "port" (Yaml.s "7777"))
      defaultConfigRefs ≠ DEFAULT_CONFIG := by
  refine ⟨rfl, fun h => ?_⟩
  have h2 : (some (Yaml.s "7777") : Option Yaml) = some (Yaml.s "1309") :=
    congrArg (fun m => modelField m "justicar" "port") h
  exact absurd (Yaml.s.inj (Option.some.inj h2)) (by decide)

/-- C9 amended: the loader returns the default model as a shallow copy —
a fresh top-level mapping whose record references coincide with the
template ones — so mutating a field of a returned service record is
visible through the template and through every later default-returning
load. -/
theorem default_copy_amended :
    loadDefaultRefs = defaultConfigRefs ∧
    derefModel (heapSetField heapTemplate
      ((List.lookup "justicar" loadDefaultRefs).getD 0) "port" (Yaml.s "7777"))
      loadDefaultRefs =
      [("justicar", [("port", Yaml.s "7777"),
         ("configuration file", Yaml.s "/opt/cd2n/justicar"), ("name", Yaml.s "justicar")]),
       ("chain", defaultChainRec)] ∧
    derefModel (heapSetField heapTemplate
      ((List.lookup "justicar" loadDefaultRefs).getD 0) "port" (Yaml.s "7777"))
      defaultConfigRefs =
      [("justicar", [("port", Yaml.s "7777"),
         ("configuration file", Yaml.s "/opt/cd2n/justicar"), ("name", Yaml.s "justicar")]),
       ("chain", defaultChainRec)] :=
  ⟨rfl, rfl, rfl⟩

/-- C10: when a known service entry omits the ports (respectively
volumes) key entirely, the string default itself is indexed as a
sequence: the extracted port is the first character of the default port
string and the extracted configuration-file path is the first character
of the default path, the colon split having no effect; a concrete load
shows the resulting justicar port is the one-character string 1. -/
theorem absent_key_truncates (sd : List (String × Yaml))
    (hp : List.lookup "ports" sd = none) (hv : List.lookup "volumes" sd = none) :
    extractField (.map sd) "ports" (defaultField "justicar" "port") = some (Yaml.s "1") ∧
    extractField (.map sd) "volumes" (defaultField "justicar" "configuration file") =
      some (Yaml.s "/") ∧
    extractField (.map sd) "ports" (defaultField "chain" "port") = some (Yaml.s "9") ∧
    extractField (.map sd) "volumes" (defaultField "chain" "configuration file") =
      some (Yaml.s "/") ∧
    modelField (load_config_from_docker_compose (.parsed (.map [("services", .map
      [("justicar", .map [("container_name", Yaml.s "x")])])]))) "justicar" "port" =
      some (Yaml.s "1") := by
  refine ⟨?_, ?_, ?_, ?_, rfl⟩ <;>
    simp only [extractField, yget, hp, hv, Option.getD_none, Option.some_bind, bind,
      Option.bind] <;>
    rfl

/-- Witness for C10 at a service entry carrying only a container name. -/
theorem absent_key_truncates_witness :
    extractField (.map [("container_name", Yaml.s "x")]) "ports"
      (defaultField "justicar" "port") = some (Yaml.s "1") ∧
    extractField (.map [("container_name", Yaml.s "x")]) "volumes"
      (defaultField "justicar" "configuration file") = some (Yaml.s "/") ∧
    extractField (.map [("container_name", Yaml.s "x")]) "ports"
      (defaultField "chain" "port") = some (Yaml.s "9") ∧
    extractField (.map [("container_name", Yaml.s "x")]) "volumes"
      (defaultField "chain" "configuration file") = some (Yaml.s "/") ∧
    modelField (load_config_from_docker_compose (.parsed (.map [("services", .map
      [("justicar", .map [("container_name", Yaml.s "x")])])]))) "justicar" "port" =
      some (Yaml.s "1") :=
  absent_key_truncates [("container_name", Yaml.s "x")] rfl rfl
